import Mathlib

/-!
Verification of `libsurv/datasets/__init__.py` (dataset-loading helpers for
survival analysis).

Tables (pandas DataFrames) are embedded as a row index together with an
ordered list of named columns of rational values.  The file system seen by
`pd.read_csv` is an environment mapping a path to the parsed column list of
the CSV file at that path.  Python exceptions are embedded as `Except`
errors; in particular a reference to an unbound Python name is embedded as
a `PyError.nameError` carrying that name, because the source module contains
several such references (`d_train`, `d_test`, `filename`, `ShuffleSplit`).

The companion module `libsurv/datasets/data_simulator.py` (class
`SimulatedData`) is not among the sources; the definitions that stand for it
are modelled from the spec and say so in their doc comments.
-/

namespace Libsurv

/-- Exceptions of the embedded Python code: `NameError` for an unbound name,
file-not-found and CSV-parse failures of `pd.read_csv`, and the simulator's
`InvalidParameter`. -/
inductive PyError where
  | nameError (name : String)
  | fileNotFound (path : String)
  | invalidParameter
deriving DecidableEq

/-- Look a column up by name in an ordered column list (first match, like
column access on a pandas frame whose column labels are unique). -/
def colOf (cs : List (String × List ℚ)) (c : String) : List ℚ :=
  match cs.find? (fun p => p.1 == c) with
  | some p => p.2
  | none => []

/-- A pandas DataFrame: a row index (row labels) together with named columns
of rational values, in column order. -/
structure DataFrame where
  index : List ℕ
  cols : List (String × List ℚ)
deriving DecidableEq

/-- The column labels, in order. -/
def DataFrame.colNames (df : DataFrame) : List String := df.cols.map Prod.fst

/-- Column access by label. -/
def DataFrame.getCol (df : DataFrame) (c : String) : List ℚ := colOf df.cols c

/-- Number of rows (length of the index). -/
def DataFrame.nrows (df : DataFrame) : ℕ := df.index.length

/-- Number of rows of a parsed CSV column list (length of its first column). -/
def rowsOf (cs : List (String × List ℚ)) : ℕ :=
  match cs with
  | [] => 0
  | p :: _ => p.2.length

/-- `pd.read_csv`: reading a path through the file-system environment yields
the parsed columns with the default contiguous 0-based row index. -/
def read_csv (env : String → Option (List (String × List ℚ))) (path : String) :
    Except PyError DataFrame :=
  match env path with
  | some cs => Except.ok ⟨List.range (rowsOf cs), cs⟩
  | none => Except.error (PyError.fileNotFound path)

/-- `_load_dataset`: read a packaged CSV resource, resolved under
`datasets/src/`. -/
def _load_dataset (env : String → Option (List (String × List ℚ)))
    (filename : String) : Except PyError DataFrame :=
  read_csv env ("datasets/src/" ++ filename)

def load_metabric_train (env : String → Option (List (String × List ℚ))) :
    Except PyError DataFrame :=
  _load_dataset env "metabric_train.csv"

def load_metabric_test (env : String → Option (List (String × List ℚ))) :
    Except PyError DataFrame :=
  _load_dataset env "metabric_test.csv"

/-- `load_metabric` as written in the source: it binds `data_train` and
`data_test`, then evaluates `pd.concat([d_train, d_test], axis=0)` where
`d_train` is an unbound name, so the call raises `NameError`. -/
def load_metabric (env : String → Option (List (String × List ℚ))) :
    Except PyError DataFrame := do
  let _data_train ← load_metabric_train env
  let _data_test ← load_metabric_test env
  Except.error (PyError.nameError "d_train")

def load_whas_train (env : String → Option (List (String × List ℚ))) :
    Except PyError DataFrame :=
  _load_dataset env "whas_train.csv"

def load_whas_test (env : String → Option (List (String × List ℚ))) :
    Except PyError DataFrame :=
  _load_dataset env "whas_test.csv"

/-- `load_whas` as written in the source: same unbound-name slip as
`load_metabric` (`d_train`/`d_test` instead of `data_train`/`data_test`). -/
def load_whas (env : String → Option (List (String × List ℚ))) :
    Except PyError DataFrame := do
  let _data_train ← load_whas_train env
  let _data_test ← load_whas_test env
  Except.error (PyError.nameError "d_train")

/-- `pd.concat([a, b], axis=0)` for frames sharing a schema: indices are
appended and each of `a`'s columns is extended with `b`'s column of the same
label.  No cell value is transformed. -/
def concatRowsPair (a b : DataFrame) : DataFrame :=
  ⟨a.index ++ b.index, a.cols.map (fun p => (p.1, p.2 ++ colOf b.cols p.1))⟩

/-- `reset_index(drop=True)`: replace the row labels by the contiguous
0-based range, keeping the columns. -/
def DataFrame.reset_index (df : DataFrame) : DataFrame :=
  ⟨List.range df.nrows, df.cols⟩

/-- `load_metabric` with the unbound-name slip corrected: the concatenation
uses the frames actually bound (`data_train`, `data_test`), as the
assignments two lines above clearly intend. -/
def load_metabric_fixed (env : String → Option (List (String × List ℚ))) :
    Except PyError DataFrame := do
  let data_train ← load_metabric_train env
  let data_test ← load_metabric_test env
  pure ((concatRowsPair data_train data_test).reset_index)

/-- `load_whas` with the unbound-name slip corrected, as in
`load_metabric_fixed`. -/
def load_whas_fixed (env : String → Option (List (String × List ℚ))) :
    Except PyError DataFrame := do
  let data_train ← load_whas_train env
  let data_test ← load_whas_test env
  pure ((concatRowsPair data_train data_test).reset_index)

/-- File-system environment holding the packaged METABRIC train and test
files, with the given parsed contents. -/
def envMetabric (tr te : List (String × List ℚ)) :
    String → Option (List (String × List ℚ)) := fun p =>
  if p = "datasets/src/metabric_train.csv" then some tr
  else if p = "datasets/src/metabric_test.csv" then some te
  else none

/-- File-system environment holding the packaged WHAS train and test files. -/
def envWhas (tr te : List (String × List ℚ)) :
    String → Option (List (String × List ℚ)) := fun p =>
  if p = "datasets/src/whas_train.csv" then some tr
  else if p = "datasets/src/whas_test.csv" then some te
  else none

/-- File-system environment holding one CSV file with the given parsed
contents at every path (used to instantiate `load_data` statements without a
read-success hypothesis). -/
def envOf (cs : List (String × List ℚ)) :
    String → Option (List (String × List ℚ)) := fun _ => some cs

/-- The result of `load_data`: one full frame, or a (train, test) pair. -/
inductive LoadResult where
  | single (df : DataFrame)
  | pair (train test : DataFrame)
deriving DecidableEq

/-- `load_data` as written in the source: its first statement evaluates
`pd.read_csv(filename)`, and `filename` is an unbound name in every
enclosing scope (the parameter is called `file_path`), so every call raises
`NameError` before any file is read or any column is partitioned. -/
def load_data (env : String → Option (List (String × List ℚ)))
    (file_path t_col e_col : String) (excluded_cols : List String)
    (split_ratio : ℚ) (normalize : Bool) (seed : ℕ) :
    Except PyError LoadResult :=
  Except.error (PyError.nameError "filename")

/-- The feature-column list computed by `load_data`: every column of the
input that is not `t_col`, not `e_col` and not excluded, in input order
(`X_cols = [x for x in data_all.columns if x not in Y_cols + excluded_cols]`). -/
def xColsOf (all_cols : List String) (t_col e_col : String)
    (excluded_cols : List String) : List String :=
  all_cols.filter (fun x => !(([t_col, e_col] ++ excluded_cols).contains x))

/-- `data_all[cs]`: select the named columns, in the given order, keeping the
row index. -/
def DataFrame.select (df : DataFrame) (cs : List String) : DataFrame :=
  ⟨df.index, cs.map (fun c => (c, df.getCol c))⟩

/-- Sum of a rational column. -/
def listSum (l : List ℚ) : ℚ := l.foldr (· + ·) 0

/-- `Series.mean()`. -/
def listMean (l : List ℚ) : ℚ := listSum l / l.length

/-- `Series.max()` (0 on an empty column, which pandas renders as NaN; the
loaders never normalize an empty frame). -/
def listMax (l : List ℚ) : ℚ :=
  match l with
  | [] => 0
  | h :: t => t.foldl max h

/-- `Series.min()`. -/
def listMin (l : List ℚ) : ℚ :=
  match l with
  | [] => 0
  | h :: t => t.foldl min h

/-- One step of the normalization loop of `load_data`:
`(x - mean(x)) / (max(x) - min(x))` applied to every entry of the column. -/
def normalizeCol (v : List ℚ) : List ℚ :=
  v.map (fun x => (x - listMean v) / (listMax v - listMin v))

/-- The loop `for col in X_cols: X.loc[:, col] = ...` of `load_data`: since
`X = data_all[X_cols]` holds exactly the columns `X_cols`, the loop
normalizes every column of `X`. -/
def normalizeX (X : DataFrame) : DataFrame :=
  ⟨X.index, X.cols.map (fun p => (p.1, normalizeCol p.2))⟩

/-- `pd.concat([a, b], axis=1)`: append the column lists (the loaders only
apply it to frames sharing the row index). -/
def concatColsPair (a b : DataFrame) : DataFrame :=
  ⟨a.index, a.cols ++ b.cols⟩

/-- `load_data` with only the file-reading slip corrected (it reads
`file_path`, the correction the spec prescribes); every other line follows
the source.  On the `split_ratio < 1` branch the source then evaluates
`ShuffleSplit(...)`, and `ShuffleSplit` is never imported, so that branch
still raises `NameError`. -/
def load_data_fileFixed (env : String → Option (List (String × List ℚ)))
    (file_path t_col e_col : String) (excluded_cols : List String)
    (split_ratio : ℚ) (normalize : Bool) (seed : ℕ) :
    Except PyError LoadResult := do
  let data_all ← read_csv env file_path
  let Y_cols := [t_col, e_col]
  let X_cols := xColsOf data_all.colNames t_col e_col excluded_cols
  let X := data_all.select X_cols
  let y := data_all.select Y_cols
  let X := if normalize then normalizeX X else X
  if split_ratio = 1 then
    pure (LoadResult.single (concatColsPair X y))
  else
    Except.error (PyError.nameError "ShuffleSplit")

/-- Linear congruential step standing for the pseudo-random generator
(modelled: the actual generator lives in external libraries). -/
def lcg (s : ℕ) : ℕ := (25 * s + 17) % 101

/-- Ceiling of a nonnegative rational, computably. -/
def ceilQ (q : ℚ) : ℕ := ((q.num + (q.den : ℤ) - 1) / (q.den : ℤ)).toNat

/-- Modelled from the spec: sklearn's `ShuffleSplit` is an external
collaborator (the spec delegates train/test split mechanics to "a standard
shuffle-split utility") and is moreover never imported by the source module.
It is modelled as: a seed-determined permutation of the row labels
`0, ..., n-1`, whose first `ceil(test_size * n)` labels form the test set
and whose remaining labels form the training set. -/
def shuffleSplitIndices (seed n : ℕ) (test_size : ℚ) : List ℕ × List ℕ :=
  let n_test := ceilQ (test_size * n)
  let perm := (List.range n).rotate (lcg seed)
  (perm.drop n_test, perm.take n_test)

/-- `df.loc[idx, :]`: select the rows with the given labels, in the given
order (the split uses it on frames with the default 0-based index, where a
label is its own position). -/
def DataFrame.locRows (df : DataFrame) (idx : List ℕ) : DataFrame :=
  ⟨idx, df.cols.map (fun p => (p.1, idx.map (fun i => p.2.getD (df.index.indexOf i) 0)))⟩

/-- `load_data` with the file-reading slip corrected and the missing
`ShuffleSplit` supplied by the model `shuffleSplitIndices`; every other line
follows the source (`test_size = 1 - split_ratio`, train/test selected from
the split indices, features and targets re-joined column-wise). -/
def load_data_fixed (env : String → Option (List (String × List ℚ)))
    (file_path t_col e_col : String) (excluded_cols : List String)
    (split_ratio : ℚ) (normalize : Bool) (seed : ℕ) :
    Except PyError LoadResult := do
  let data_all ← read_csv env file_path
  let Y_cols := [t_col, e_col]
  let X_cols := xColsOf data_all.colNames t_col e_col excluded_cols
  let X := data_all.select X_cols
  let y := data_all.select Y_cols
  let X := if normalize then normalizeX X else X
  if split_ratio = 1 then
    pure (LoadResult.single (concatColsPair X y))
  else
    let (train_index, test_index) :=
      shuffleSplitIndices seed data_all.nrows (1 - split_ratio)
    let train_X := X.locRows train_index
    let test_X := X.locRows test_index
    let train_y := y.locRows train_index
    let test_y := y.locRows test_index
    pure (LoadResult.pair (concatColsPair train_X train_y)
      (concatColsPair test_X test_y))

/-- Modelled from the spec: the class `SimulatedData` lives in
`libsurv/datasets/data_simulator.py`, which is not among the sources; its
construction parameters are those the caller `load_simulated_data` passes
(hazard ratio, average death time, end-of-study censoring time, feature
dimensionality, number of risk-influencing variables). -/
structure SimulatedData where
  hr_ratio : ℚ
  average_death : ℚ
  end_time : ℚ
  num_features : ℕ
  num_var : ℕ
deriving DecidableEq

/-- Modelled from the spec: construction rejects `num_var > num_features`
with `InvalidParameter`, eagerly (the spec lists this among the error
conditions rejected "before any sampling work begins"). -/
def SimulatedData.make (hr ad et : ℚ) (nf nv : ℕ) :
    Except PyError SimulatedData :=
  if nv > nf then Except.error PyError.invalidParameter
  else Except.ok ⟨hr, ad, et, nf, nv⟩

/-- Modelled from the spec: re-seeding the global generator from the given
seed (`np.random.seed(seed)`), discarding whatever state it held before. -/
def seedReset (seed : ℕ) : ℕ := lcg seed

/-- One uniform draw in `[0, 1)` from the generator state, with the stepped
state. -/
def drawU (g : ℕ) : ℚ × ℕ := (((g % 101 : ℕ) : ℚ) / 101, lcg g)

/-- A run of uniform draws, threading the generator state. -/
def drawUnifs : ℕ → ℕ → List ℚ × ℕ
  | 0, g => ([], g)
  | n + 1, g =>
    let (u, g1) := drawU g
    let (us, g2) := drawUnifs n g1
    (u :: us, g2)

/-- Modelled from the spec: the gaussian method's optional configuration bag
maps to an explicit structure with named fields; only a spread scale is
represented here, since no claim depends on its contents. -/
structure GaussianConfig where
  scale : ℚ
deriving DecidableEq

/-- Modelled from the spec: a covariate obtained from one uniform draw —
the `linear` method uses the baseline draw itself, the `gaussian` method a
centered draw spread by the configuration scale. -/
def covariateOf (method : String) (cfg : GaussianConfig) (u : ℚ) : ℚ :=
  if method = "gaussian" then cfg.scale * (2 * u - 1) else u

/-- Modelled from the spec: the risk score is computed from the first
`num_var` covariates (their mean here, a linear combination as the spec
describes for the `linear` method). -/
def riskScore (sd : SimulatedData) (row : List ℚ) : ℚ :=
  listSum (row.take sd.num_var) / sd.num_var

/-- Modelled from the spec: the per-subject hazard multiplier, calibrated so
that a subject at the maximal risk score (1) experiences hazard
`hr_ratio ×` that of a subject at the minimal risk score (0). -/
def hazardMult (sd : SimulatedData) (s : ℚ) : ℚ := 1 + (sd.hr_ratio - 1) * s

/-- Modelled from the spec: a rational surrogate for the unit-exponential
quantile `-ln(1-u)` (nonnegative and increasing on `[0,1)`); the properties
proved below do not depend on its exact shape. -/
def expQ (u : ℚ) : ℚ := u / (1 - u)

/-- Modelled from the spec: the true death time of a subject — an
exponential draw whose rate is the baseline rate (`1 / average_death`)
scaled by the subject's hazard multiplier. -/
def deathTimeOf (sd : SimulatedData) (row : List ℚ) (u : ℚ) : ℚ :=
  sd.average_death * expQ u / hazardMult sd (riskScore sd row)

/-- Draw one subject: `num_features` covariates, then the exponential draw
for its true death time. -/
def drawSubject (sd : SimulatedData) (method : String) (cfg : GaussianConfig)
    (g : ℕ) : (List ℚ × ℚ) × ℕ :=
  let (us, g1) := drawUnifs sd.num_features g
  let row := us.map (covariateOf method cfg)
  let (u, g2) := drawU g1
  ((row, deathTimeOf sd row u), g2)

/-- Draw `n` subjects, threading the generator state. -/
def drawSubjects (sd : SimulatedData) (method : String) (cfg : GaussianConfig) :
    ℕ → ℕ → List (List ℚ × ℚ) × ℕ
  | 0, g => ([], g)
  | n + 1, g =>
    let (s, g1) := drawSubject sd method cfg g
    let (rest, g2) := drawSubjects sd method cfg n g1
    (s :: rest, g2)

/-- Censoring at the end of study: the observed pair is
`(min(death_time, end_time), 1 if death_time ≤ end_time else 0)`. -/
def censor (end_time d : ℚ) : ℚ × ℕ :=
  (min d end_time, if d ≤ end_time then 1 else 0)

/-- The aligned arrays returned by `generate_data`: feature matrix, event
indicator vector, observed time vector. -/
structure GenResult where
  x : List (List ℚ)
  e : List ℕ
  t : List ℚ
deriving DecidableEq

/-- The aligned arrays assembled from the drawn subjects: the feature
matrix, and the event/time vectors obtained by censoring every true death
time at `end_time`. -/
def simRaw (end_time : ℚ) (subs : List (List ℚ × ℚ)) : GenResult :=
  let pairs := (subs.map Prod.snd).map (censor end_time)
  ⟨subs.map Prod.fst, pairs.map Prod.snd, pairs.map Prod.fst⟩

/-- Modelled from the spec: `SimulatedData.generate_data` — validate `N` and
`method` eagerly (returning `InvalidParameter` with the global generator
state untouched), then re-seed the global generator from `seed`, draw the
subjects, and censor every true death time at `end_time`. -/
def SimulatedData.generate_data (sd : SimulatedData) (N : ℤ) (method : String)
    (cfg : GaussianConfig) (seed : ℕ) (g : ℕ) :
    Except PyError GenResult × ℕ :=
  if N ≤ 0 then (Except.error PyError.invalidParameter, g)
  else if ¬(method = "linear" ∨ method = "gaussian") then
    (Except.error PyError.invalidParameter, g)
  else
    let g0 := seedReset seed
    let (subs, g1) := drawSubjects sd method cfg N.toNat g0
    (Except.ok (simRaw sd.end_time subs), g1)

/-- The true death times drawn by a successful `generate_data` run (the
`Prod.snd` of every drawn subject). -/
def simDeaths (sd : SimulatedData) (method : String) (cfg : GaussianConfig)
    (N : ℤ) (seed : ℕ) : List ℚ :=
  (drawSubjects sd method cfg N.toNat (seedReset seed)).1.map Prod.snd

/-- The frame built by `load_simulated_data` from the raw arrays: columns
`x_0, ..., x_{num_features-1}` (`pd.DataFrame(raw['x'], columns=...)`),
then `e` (`df['e'] = raw['e']`), then `t` (`df['t'] = raw['t']`). -/
def simFrame (num_features : ℕ) (raw : GenResult) : DataFrame :=
  ⟨List.range raw.t.length,
    ((List.range num_features).map
      (fun i => ("x_" ++ toString i, raw.x.map (fun r => r.getD i 0))))
      ++ [("e", raw.e.map (fun (b : ℕ) => (b : ℚ))), ("t", raw.t)]⟩

/-- `load_simulated_data`: construct the generator, generate the raw sample,
and wrap it in a frame (following the source lines 169-176).  The second
component is the global generator state after the call. -/
def load_simulated_data (hr_ratio : ℚ) (N : ℤ) (num_features num_var : ℕ)
    (average_death end_time : ℚ) (method : String)
    (gaussian_config : GaussianConfig) (seed : ℕ) (g : ℕ) :
    Except PyError DataFrame × ℕ :=
  match SimulatedData.make hr_ratio average_death end_time num_features num_var with
  | Except.error err => (Except.error err, g)
  | Except.ok sd =>
    match sd.generate_data N method gaussian_config seed g with
    | (Except.error err, g1) => (Except.error err, g1)
    | (Except.ok raw, g1) => (Except.ok (simFrame num_features raw), g1)

/-! ### Helper lemmas -/

/-- Column lookup skips a block none of whose labels match. -/
theorem colOf_append_of_ne (A B : List (String × List ℚ)) (c : String)
    (h : ∀ p ∈ A, p.1 ≠ c) : colOf (A ++ B) c = colOf B c := by
  unfold colOf
  rw [List.find?_append]
  have hA : A.find? (fun p => p.1 == c) = none := by
    rw [List.find?_eq_none]
    intro p hp
    simpa using h p hp
  rw [hA, Option.none_or]

/-- Membership in the feature-column list of `load_data`. -/
theorem mem_xColsOf (all_cols : List String) (t_col e_col : String)
    (excluded_cols : List String) (c : String) :
    c ∈ xColsOf all_cols t_col e_col excluded_cols ↔
      c ∈ all_cols ∧ c ≠ t_col ∧ c ≠ e_col ∧ c ∉ excluded_cols := by
  simp [xColsOf, List.mem_filter, not_or, and_assoc]

/-! ### Claim theorems -/

/-- Claim C2: the claim says `load_metabric()` and `load_whas()` return the
row-wise concatenation of the train and test tables with a contiguous
0-based index and untransformed values.  In the source both combined loaders
bind `data_train`/`data_test` but concatenate the undefined names
`d_train`/`d_test`, so every call raises `NameError`; with that slip
corrected, the result is exactly the claimed concatenation: the index is
`range (rows(train) + rows(test))` and each column is the train column with
the test column of the same label appended, every cell value unchanged. -/
theorem C2_combined_loader_bug :
    (∀ tr te : List (String × List ℚ),
      load_metabric (envMetabric tr te) = Except.error (PyError.nameError "d_train") ∧
      load_whas (envWhas tr te) = Except.error (PyError.nameError "d_train")) ∧
    (∀ tr te : List (String × List ℚ),
      load_metabric_fixed (envMetabric tr te) =
        Except.ok ⟨List.range (rowsOf tr + rowsOf te),
          tr.map (fun p => (p.1, p.2 ++ colOf te p.1))⟩ ∧
      load_whas_fixed (envWhas tr te) =
        Except.ok ⟨List.range (rowsOf tr + rowsOf te),
          tr.map (fun p => (p.1, p.2 ++ colOf te p.1))⟩) := by
  constructor
  · intro tr te
    exact ⟨rfl, rfl⟩
  · intro tr te
    constructor
    · have h : load_metabric_fixed (envMetabric tr te) =
          Except.ok ((concatRowsPair ⟨List.range (rowsOf tr), tr⟩
            ⟨List.range (rowsOf te), te⟩).reset_index) := rfl
      rw [h]
      simp [DataFrame.reset_index, concatRowsPair, DataFrame.nrows]
    · have h : load_whas_fixed (envWhas tr te) =
          Except.ok ((concatRowsPair ⟨List.range (rowsOf tr), tr⟩
            ⟨List.range (rowsOf te), te⟩).reset_index) := rfl
      rw [h]
      simp [DataFrame.reset_index, concatRowsPair, DataFrame.nrows]

/-- Claim C1: the claim says every call `load_data(file_path, t_col, e_col,
excluded_cols, ...)` reads the CSV at `file_path` and partitions its columns
into `X` (everything except `t_col`, `e_col` and the excluded columns) and
`Y = [t_col, e_col]`.  As written, every call raises `NameError`: the read
is `pd.read_csv(filename)` and `filename` is unbound (the parameter is
`file_path`).  With that slip corrected, the partition is exactly as
claimed: `X_cols` holds precisely the non-target non-excluded columns, and
the returned frame's columns are `X_cols` followed by `[t_col, e_col]`. -/
theorem C1_load_data_partition_bug :
    (∀ (env : String → Option (List (String × List ℚ)))
        (file_path t_col e_col : String) (excluded_cols : List String)
        (split_ratio : ℚ) (normalize : Bool) (seed : ℕ),
      load_data env file_path t_col e_col excluded_cols split_ratio normalize seed =
        Except.error (PyError.nameError "filename")) ∧
    (∀ (all_cols : List String) (t_col e_col : String)
        (excluded_cols : List String) (c : String),
      c ∈ xColsOf all_cols t_col e_col excluded_cols ↔
        c ∈ all_cols ∧ c ≠ t_col ∧ c ≠ e_col ∧ c ∉ excluded_cols) ∧
    (∀ (cs : List (String × List ℚ)) (t_col e_col : String)
        (excluded_cols : List String) (normalize : Bool) (seed : ℕ),
      ∃ df, load_data_fileFixed (envOf cs) "data.csv" t_col e_col excluded_cols
            1 normalize seed = Except.ok (LoadResult.single df) ∧
        df.colNames = xColsOf (cs.map Prod.fst) t_col e_col excluded_cols
          ++ [t_col, e_col]) := by
  refine ⟨fun _ _ _ _ _ _ _ _ => rfl, mem_xColsOf, ?_⟩
  intro cs t_col e_col excluded_cols normalize seed
  cases normalize with
  | false =>
    refine ⟨_, rfl, ?_⟩
    simp [DataFrame.colNames, concatColsPair, DataFrame.select, List.map_map,
      Function.comp_def]
  | true =>
    refine ⟨_, rfl, ?_⟩
    simp [DataFrame.colNames, concatColsPair, DataFrame.select, normalizeX,
      List.map_map, Function.comp_def]

/-- Claim C1 witness: the partition characterization instantiated on a
concrete table with an excluded column. -/
theorem C1_load_data_partition_bug_witness :
    ("a" ∈ xColsOf ["a", "b", "t", "e"] "t" "e" ["b"] ↔
      "a" ∈ ["a", "b", "t", "e"] ∧ "a" ≠ "t" ∧ "a" ≠ "e" ∧ "a" ∉ ["b"]) ∧
    (∃ df, load_data_fileFixed (envOf [("a", [1, 2]), ("b", [3, 4]),
          ("t", [5, 6]), ("e", [1, 0])]) "data.csv" "t" "e" ["b"]
          1 false 42 = Except.ok (LoadResult.single df) ∧
      df.colNames = xColsOf ["a", "b", "t", "e"] "t" "e" ["b"] ++ ["t", "e"]) :=
  ⟨C1_load_data_partition_bug.2.1 ["a", "b", "t", "e"] "t" "e" ["b"] "a",
    C1_load_data_partition_bug.2.2 [("a", [1, 2]), ("b", [3, 4]),
      ("t", [5, 6]), ("e", [1, 0])] "t" "e" ["b"] false 42⟩

/-- Claim C4: the claim says `load_data(..., split_ratio=1.0)` returns one
table with the input's row count and columns `X_cols ++ [t_col, e_col]`.
As written every call raises `NameError` (unbound `filename`); with that
slip corrected, the returned single frame has exactly the input's row count
and exactly the claimed column sequence. -/
theorem C4_full_table_bug :
    (∀ (env : String → Option (List (String × List ℚ)))
        (file_path t_col e_col : String) (excluded_cols : List String)
        (normalize : Bool) (seed : ℕ),
      load_data env file_path t_col e_col excluded_cols 1 normalize seed =
        Except.error (PyError.nameError "filename")) ∧
    (∀ (cs : List (String × List ℚ)) (t_col e_col : String)
        (excluded_cols : List String) (normalize : Bool) (seed : ℕ),
      ∃ df, load_data_fileFixed (envOf cs) "data.csv" t_col e_col excluded_cols
            1 normalize seed = Except.ok (LoadResult.single df) ∧
        df.nrows = rowsOf cs ∧
        df.colNames = xColsOf (cs.map Prod.fst) t_col e_col excluded_cols
          ++ [t_col, e_col]) := by
  refine ⟨fun _ _ _ _ _ _ _ => rfl, ?_⟩
  intro cs t_col e_col excluded_cols normalize seed
  cases normalize with
  | false =>
    refine ⟨_, rfl, ?_, ?_⟩
    · simp [DataFrame.nrows, concatColsPair, DataFrame.select, normalizeX]
    · simp [DataFrame.colNames, concatColsPair, DataFrame.select, List.map_map,
        Function.comp_def]
  | true =>
    refine ⟨_, rfl, ?_, ?_⟩
    · simp [DataFrame.nrows, concatColsPair, DataFrame.select, normalizeX]
    · simp [DataFrame.colNames, concatColsPair, DataFrame.select, normalizeX,
        List.map_map, Function.comp_def]

/-- Claim C3: the claim says `load_data(..., normalize=True)` rescales each
feature column as `(x - mean(x)) / (max(x) - min(x))` (mean-centered
min-max scaling, not z-score).  As written every call raises `NameError`
(unbound `filename`); with that slip corrected, each feature column of the
result is exactly the claimed rescaling — the divisor is the column's range,
not its standard deviation — while the target columns are carried over. -/
theorem C3_normalize_formula_bug :
    (∀ (env : String → Option (List (String × List ℚ)))
        (file_path t_col e_col : String) (excluded_cols : List String)
        (split_ratio : ℚ) (seed : ℕ),
      load_data env file_path t_col e_col excluded_cols split_ratio true seed =
        Except.error (PyError.nameError "filename")) ∧
    (∀ (cs : List (String × List ℚ)) (t_col e_col : String)
        (excluded_cols : List String) (seed : ℕ),
      ∃ df, load_data_fileFixed (envOf cs) "data.csv" t_col e_col excluded_cols
            1 true seed = Except.ok (LoadResult.single df) ∧
        df.cols =
          (xColsOf (cs.map Prod.fst) t_col e_col excluded_cols).map (fun c =>
            (c, (colOf cs c).map (fun x =>
              (x - listMean (colOf cs c)) /
                (listMax (colOf cs c) - listMin (colOf cs c)))))
          ++ [(t_col, colOf cs t_col), (e_col, colOf cs e_col)]) := by
  refine ⟨fun _ _ _ _ _ _ _ => rfl, ?_⟩
  intro cs t_col e_col excluded_cols seed
  refine ⟨_, rfl, ?_⟩
  simp [concatColsPair, DataFrame.select, normalizeX, DataFrame.getCol,
    DataFrame.colNames, normalizeCol, List.map_map, Function.comp_def]

/-- Claim C9: the claim says `load_data(..., normalize=True)` rescales only
the feature columns, leaving the `t_col` and `e_col` values of the returned
frame identical to the input.  As written every call raises `NameError`
(unbound `filename`), so no table is ever returned; with that slip
corrected, the target columns of the returned frame are exactly the input's
target columns, untouched by the normalization. -/
theorem C9_target_columns_bug :
    (∀ (env : String → Option (List (String × List ℚ)))
        (file_path t_col e_col : String) (excluded_cols : List String)
        (split_ratio : ℚ) (seed : ℕ),
      load_data env file_path t_col e_col excluded_cols split_ratio true seed =
        Except.error (PyError.nameError "filename")) ∧
    (∀ (cs : List (String × List ℚ)) (t_col e_col : String)
        (excluded_cols : List String) (seed : ℕ),
      ∃ df, load_data_fileFixed (envOf cs) "data.csv" t_col e_col excluded_cols
            1 true seed = Except.ok (LoadResult.single df) ∧
        df.getCol t_col = colOf cs t_col ∧ df.getCol e_col = colOf cs e_col) := by
  refine ⟨fun _ _ _ _ _ _ _ => rfl, ?_⟩
  intro cs t_col e_col excluded_cols seed
  refine ⟨_, rfl, ?_, ?_⟩
  all_goals
    show colOf ((normalizeX (DataFrame.select ⟨List.range (rowsOf cs), cs⟩
      (xColsOf (cs.map Prod.fst) t_col e_col excluded_cols))).cols ++
      (DataFrame.select ⟨List.range (rowsOf cs), cs⟩ [t_col, e_col]).cols) _ = _
  · rw [colOf_append_of_ne]
    · by_cases h : t_col = e_col
      · subst h
        simp [DataFrame.select, DataFrame.getCol, colOf]
      · simp [DataFrame.select, DataFrame.getCol, colOf]
    · intro p hp
      simp only [normalizeX, DataFrame.select, List.map_map, List.mem_map,
        Function.comp_def] at hp
      obtain ⟨c, hc, rfl⟩ := hp
      have := (mem_xColsOf _ _ _ _ _).mp hc
      exact this.2.1
  · rw [colOf_append_of_ne]
    · by_cases h : t_col = e_col
      · subst h
        simp [DataFrame.select, DataFrame.getCol, colOf]
      · simp [DataFrame.select, DataFrame.getCol, colOf, h]
    · intro p hp
      simp only [normalizeX, DataFrame.select, List.map_map, List.mem_map,
        Function.comp_def] at hp
      obtain ⟨c, hc, rfl⟩ := hp
      have := (mem_xColsOf _ _ _ _ _).mp hc
      exact this.2.2.1

/-- A seed-rotated range has no duplicate labels. -/
theorem nodup_rotate_range (n m : ℕ) : ((List.range n).rotate m).Nodup :=
  List.nodup_rotate.mpr (List.nodup_range n)

/-- Bind on a successful `Except` computation. -/
theorem except_bind_ok {α β : Type} (x : α) (f : α → Except PyError β) :
    (Except.ok x >>= f) = f x := rfl

/-- Claim C5: the claim says `load_data(..., split_ratio=0.8)` returns two
tables whose row counts sum to the input's row count and whose row sets are
disjoint.  As written every call raises `NameError` (unbound `filename`);
with the read corrected the split branch still raises `NameError`, because
`ShuffleSplit` is never imported.  With the split utility supplied (modelled
as a seed-determined permutation split), the returned train/test pair has
exactly the claimed properties: the row counts sum to the input's and the
row-label sets are disjoint. -/
theorem C5_split_bug :
    (∀ (env : String → Option (List (String × List ℚ)))
        (file_path t_col e_col : String) (excluded_cols : List String)
        (normalize : Bool) (seed : ℕ),
      load_data env file_path t_col e_col excluded_cols (4/5) normalize seed =
        Except.error (PyError.nameError "filename")) ∧
    (∀ (cs : List (String × List ℚ)) (t_col e_col : String)
        (excluded_cols : List String) (normalize : Bool) (seed : ℕ),
      load_data_fileFixed (envOf cs) "data.csv" t_col e_col excluded_cols
          (4/5) normalize seed = Except.error (PyError.nameError "ShuffleSplit")) ∧
    (∀ (cs : List (String × List ℚ)) (t_col e_col : String)
        (excluded_cols : List String) (normalize : Bool) (seed : ℕ),
      ∃ train test,
        load_data_fixed (envOf cs) "data.csv" t_col e_col excluded_cols
            (4/5) normalize seed = Except.ok (LoadResult.pair train test) ∧
        train.nrows + test.nrows = rowsOf cs ∧
        ∀ i ∈ train.index, i ∉ test.index) := by
  have hne : ¬((4 : ℚ)/5 = 1) := by norm_num
  refine ⟨fun _ _ _ _ _ _ _ => rfl, ?_, ?_⟩
  · intro cs t_col e_col excluded_cols normalize seed
    have hread : read_csv (envOf cs) "data.csv" =
        Except.ok ⟨List.range (rowsOf cs), cs⟩ := rfl
    simp only [load_data_fileFixed, hread, except_bind_ok]
    rw [if_neg hne]
  · intro cs t_col e_col excluded_cols normalize seed
    have hread : read_csv (envOf cs) "data.csv" =
        Except.ok ⟨List.range (rowsOf cs), cs⟩ := rfl
    simp only [load_data_fixed, hread, except_bind_ok]
    rw [if_neg hne]
    refine ⟨_, _, rfl, ?_, ?_⟩
    · simp [DataFrame.nrows, concatColsPair, DataFrame.locRows, shuffleSplitIndices,
        DataFrame.select, normalizeX]
      omega
    · intro i hi hmem
      exact (List.disjoint_take_drop (nodup_rotate_range _ _) le_rfl).symm hi hmem

/-- Claim C5 witness: the repaired split instantiated on a concrete
five-row table. -/
theorem C5_split_bug_witness :
    ∃ train test,
      load_data_fixed (envOf [("a", [1, 2, 3, 4, 5]), ("t", [10, 20, 30, 40, 50]),
          ("e", [1, 0, 1, 0, 1])]) "data.csv" "t" "e" [] (4/5) false 7 =
        Except.ok (LoadResult.pair train test) ∧
      train.nrows + test.nrows = rowsOf [("a", [1, 2, 3, 4, 5]),
        ("t", [10, 20, 30, 40, 50]), ("e", [1, 0, 1, 0, 1])] ∧
      ∀ i ∈ train.index, i ∉ test.index :=
  C5_split_bug.2.2 [("a", [1, 2, 3, 4, 5]), ("t", [10, 20, 30, 40, 50]),
    ("e", [1, 0, 1, 0, 1])] "t" "e" [] false 7

/-- Claim C10: when `split_ratio` is 1.0 no randomness is consumed, so the
result of `load_data` does not depend on the seed.  This holds for the
source as written (every call raises the same `NameError`, for every seed),
for the read-corrected version, and for the fully repaired version in which
the seed genuinely feeds the split utility on the other branch. -/
theorem C10_seed_independent_full :
    (∀ (env : String → Option (List (String × List ℚ)))
        (file_path t_col e_col : String) (excluded_cols : List String)
        (normalize : Bool) (s1 s2 : ℕ),
      load_data env file_path t_col e_col excluded_cols 1 normalize s1 =
        load_data env file_path t_col e_col excluded_cols 1 normalize s2) ∧
    (∀ (env : String → Option (List (String × List ℚ)))
        (file_path t_col e_col : String) (excluded_cols : List String)
        (normalize : Bool) (s1 s2 : ℕ),
      load_data_fileFixed env file_path t_col e_col excluded_cols 1 normalize s1 =
        load_data_fileFixed env file_path t_col e_col excluded_cols 1 normalize s2) ∧
    (∀ (env : String → Option (List (String × List ℚ)))
        (file_path t_col e_col : String) (excluded_cols : List String)
        (normalize : Bool) (s1 s2 : ℕ),
      load_data_fixed env file_path t_col e_col excluded_cols 1 normalize s1 =
        load_data_fixed env file_path t_col e_col excluded_cols 1 normalize s2) := by
  refine ⟨fun _ _ _ _ _ _ _ _ => rfl, fun _ _ _ _ _ _ _ _ => rfl, ?_⟩
  intro env file_path t_col e_col excluded_cols normalize s1 s2
  unfold load_data_fixed
  cases read_csv env file_path with
  | error e => rfl
  | ok df => rfl

/-- The label of a simulated feature column is never a one-character label
such as `"t"` or `"e"`. -/
theorem xcol_name_ne (i : ℕ) (c : String) (hc : c.length = 1) :
    ("x_" ++ toString i) ≠ c := by
  intro h
  have hl := congrArg String.length h
  rw [String.length_append, hc] at hl
  have h2 : ("x_" : String).length = 2 := rfl
  rw [h2] at hl
  omega

/-- Looking up `"t"` in the simulated frame's columns lands on the observed
time column. -/
theorem colOf_sim_t (nf : ℕ) (f : ℕ → List ℚ) (es ts : List ℚ) :
    colOf (((List.range nf).map (fun i => ("x_" ++ toString i, f i)))
      ++ [("e", es), ("t", ts)]) "t" = ts := by
  rw [colOf_append_of_ne]
  · rfl
  · intro p hp
    simp only [List.mem_map] at hp
    obtain ⟨i, _, rfl⟩ := hp
    exact xcol_name_ne i "t" rfl

/-- Looking up `"e"` in the simulated frame's columns lands on the event
indicator column. -/
theorem colOf_sim_e (nf : ℕ) (f : ℕ → List ℚ) (es ts : List ℚ) :
    colOf (((List.range nf).map (fun i => ("x_" ++ toString i, f i)))
      ++ [("e", es), ("t", ts)]) "e" = es := by
  rw [colOf_append_of_ne]
  · rfl
  · intro p hp
    simp only [List.mem_map] at hp
    obtain ⟨i, _, rfl⟩ := hp
    exact xcol_name_ne i "e" rfl

/-- Claim C6: for every generated subject, the observed pair is derived from
the true death time by `t = min(death_time, end_time)` and
`e = 1 if death_time ≤ end_time else 0`, so `t ≤ end_time` for every record.
Settled against the spec-modelled generator: on every successful call the
`t` column is the pointwise `min` of the drawn death times with `end_time`,
the `e` column the corresponding indicator, and every observed time is at
most `end_time`. -/
theorem C6_censoring (hr ad et : ℚ) (nf nv : ℕ) (N : ℤ) (method : String)
    (cfg : GaussianConfig) (seed g : ℕ)
    (hnv : nv ≤ nf) (hN : 0 < N)
    (hm : method = "linear" ∨ method = "gaussian") :
    ∃ df g1,
      load_simulated_data hr N nf nv ad et method cfg seed g = (Except.ok df, g1) ∧
      df.getCol "t" =
        (simDeaths ⟨hr, ad, et, nf, nv⟩ method cfg N seed).map (fun d => min d et) ∧
      df.getCol "e" =
        (simDeaths ⟨hr, ad, et, nf, nv⟩ method cfg N seed).map
          (fun d => if d ≤ et then (1 : ℚ) else 0) ∧
      ∀ v ∈ df.getCol "t", v ≤ et := by
  have hnv' : ¬(nv > nf) := not_lt.mpr hnv
  have hN' : ¬(N ≤ 0) := not_le.mpr hN
  have hm' : ¬¬(method = "linear" ∨ method = "gaussian") := not_not.mpr hm
  rcases hds : drawSubjects ⟨hr, ad, et, nf, nv⟩ method cfg N.toNat (seedReset seed)
    with ⟨subs, gf⟩
  refine ⟨simFrame nf (simRaw et subs), gf, ?_, ?_, ?_, ?_⟩
  · simp only [load_simulated_data, SimulatedData.make, SimulatedData.generate_data,
      if_neg hnv', if_neg hN', if_neg hm', hds]
  · simp only [simFrame, DataFrame.getCol]
    rw [colOf_sim_t]
    simp [simRaw, simDeaths, hds, List.map_map, censor, Function.comp_def]
  · simp only [simFrame, DataFrame.getCol, simRaw]
    rw [colOf_sim_e]
    simp only [simDeaths, hds, List.map_map, Function.comp_def, censor]
    have hc : (fun x : List ℚ × ℚ => (((if x.2 ≤ et then (1 : ℕ) else 0) : ℕ) : ℚ)) =
        fun x : List ℚ × ℚ => if x.2 ≤ et then (1 : ℚ) else 0 := by
      funext x
      split <;> simp
    rw [hc]
  · simp only [simFrame, DataFrame.getCol]
    rw [colOf_sim_t]
    intro v hv
    simp only [simRaw, List.map_map, List.mem_map, Function.comp_def, censor] at hv
    obtain ⟨d, _, rfl⟩ := hv
    exact min_le_right _ _

/-- Claim C6 witness: the censoring characterization at a concrete valid
parameter set. -/
theorem C6_censoring_witness :
    ∃ df g1,
      load_simulated_data 2 3 2 1 5 15 "linear" ⟨1⟩ 42 0 = (Except.ok df, g1) ∧
      df.getCol "t" =
        (simDeaths ⟨2, 5, 15, 2, 1⟩ "linear" ⟨1⟩ 3 42).map (fun d => min d 15) ∧
      df.getCol "e" =
        (simDeaths ⟨2, 5, 15, 2, 1⟩ "linear" ⟨1⟩ 3 42).map
          (fun d => if d ≤ 15 then (1 : ℚ) else 0) ∧
      ∀ v ∈ df.getCol "t", v ≤ 15 :=
  C6_censoring 2 5 15 2 1 3 "linear" ⟨1⟩ 42 0 (by decide) (by decide) (Or.inl rfl)

/-- Claim C7: `load_simulated_data` fails with `InvalidParameter` when
`num_var > num_features`, when `N ≤ 0`, or when the method is neither
`linear` nor `gaussian`, and the rejection is eager: the global generator
state is returned untouched, so no sampling work was begun.  Settled against
the spec-modelled generator. -/
theorem C7_invalid_params (hr ad et : ℚ) (nf nv : ℕ) (N : ℤ) (method : String)
    (cfg : GaussianConfig) (seed g : ℕ)
    (h : nf < nv ∨ N ≤ 0 ∨ (method ≠ "linear" ∧ method ≠ "gaussian")) :
    load_simulated_data hr N nf nv ad et method cfg seed g =
      (Except.error PyError.invalidParameter, g) := by
  rcases h with h | h | h
  · have hgt : nv > nf := h
    simp only [load_simulated_data, SimulatedData.make, if_pos hgt]
  · by_cases hnv : nv > nf
    · simp only [load_simulated_data, SimulatedData.make, if_pos hnv]
    · simp only [load_simulated_data, SimulatedData.make, SimulatedData.generate_data,
        if_neg hnv, if_pos h]
  · by_cases hnv : nv > nf
    · simp only [load_simulated_data, SimulatedData.make, if_pos hnv]
    · by_cases hN : N ≤ 0
      · simp only [load_simulated_data, SimulatedData.make,
          SimulatedData.generate_data, if_neg hnv, if_pos hN]
      · have hm : ¬(method = "linear" ∨ method = "gaussian") := not_or.mpr h
        simp only [load_simulated_data, SimulatedData.make,
          SimulatedData.generate_data, if_neg hnv, if_neg hN, if_pos hm]

/-- Claim C7 witness: the eager rejection at a concrete invalid parameter
set (`num_var = 3 > 2 = num_features`), with the generator state 9
untouched. -/
theorem C7_invalid_params_witness :
    (2 < 3 ∨ (5 : ℤ) ≤ 0 ∨ (("linear" : String) ≠ "linear" ∧ ("linear" : String) ≠ "gaussian")) ∧
    load_simulated_data 2 5 2 3 5 15 "linear" ⟨1⟩ 42 9 =
      (Except.error PyError.invalidParameter, 9) :=
  ⟨Or.inl (by decide),
    C7_invalid_params 2 5 15 2 3 5 "linear" ⟨1⟩ 42 9 (Or.inl (by decide))⟩

/-- Claim C8: `load_simulated_data` is deterministic in its seed: the
returned table depends only on the parameters and the seed, not on the
pre-existing global generator state — two calls with identical parameters
and seed (whatever state the generator is in at each call) return identical
output tables, because the run re-seeds the generator from `seed`.  Settled
against the spec-modelled generator. -/
theorem C8_seed_determinism (hr ad et : ℚ) (nf nv : ℕ) (N : ℤ) (method : String)
    (cfg : GaussianConfig) (seed g1 g2 : ℕ) :
    (load_simulated_data hr N nf nv ad et method cfg seed g1).1 =
      (load_simulated_data hr N nf nv ad et method cfg seed g2).1 := by
  by_cases hnv : nv > nf
  · simp only [load_simulated_data, SimulatedData.make, if_pos hnv]
  · by_cases hN : N ≤ 0
    · simp only [load_simulated_data, SimulatedData.make,
        SimulatedData.generate_data, if_neg hnv, if_pos hN]
    · by_cases hm : ¬(method = "linear" ∨ method = "gaussian")
      · simp only [load_simulated_data, SimulatedData.make,
          SimulatedData.generate_data, if_neg hnv, if_neg hN, if_pos hm]
      · simp only [load_simulated_data, SimulatedData.make,
          SimulatedData.generate_data, if_neg hnv, if_neg hN, if_neg hm]

end Libsurv
